import Mathlib

/-!
Verification development for the postmark.js client library.

The data model and the endpoint methods of `src/ServerClient.ts` and
`src/client/models/triggers/TriggerFilteringParameters.ts` are embedded
shallowly: each endpoint method becomes a pure function from its arguments
to the `DispatchCall` it hands to the base client, and the base client's
dispatch (whose source file is not part of the sample) is modelled from the
specification as a pure function from a transport outcome to a promise
settlement plus the list of callback invocations.
-/

namespace Postmark

/-- HTTP verbs used by the client (from `HttpMethod` in the models). -/
inductive HttpMethod where
  | GET
  | POST
  | PUT
  | DELETE
deriving DecidableEq, Repr

/-- Client connection options.  Modelled from the spec: `IClientOptions`
is imported by `ServerClient.ts` but its definition is not in the sample;
the spec gives the shape as useTLS/useHttps flag, requestHost, timeout,
and the test suite reads the fields `useHttps`, `requestHost`, `timeout`. -/
structure ClientOptions where
  useHttps : Bool
  requestHost : String
  timeout : Int
deriving DecidableEq, Repr

/-- Modelled from the spec: the documented defaults for unspecified
client options (useTLS=true, requestHost="api.postmarkapp.com", timeout=30),
matching the expectation of the `default clientOptions` test. -/
def defaultClientOptions : ClientOptions :=
  { useHttps := true, requestHost := "api.postmarkapp.com", timeout := 30 }

/-- The uniform typed error shape: a stable machine-readable name and a
human-readable message (spec section 7). -/
structure PError where
  name : String
  message : String
deriving DecidableEq, Repr

/-- Modelled from the spec: the configuration error thrown when a client is
constructed with an empty token; the message is the one the test suite
expects from `new postmark.AccountClient('')`. -/
def tokenRequiredError : PError :=
  { name := "InvalidTokenError",
    message := "A valid API token must be provided when creating a ClientOptions" }

/-- The stable invalid-credential error kind observed by the test suite
(`invalidTokenError = 'InvalidAPIKeyError'`). -/
def invalidApiKeyError : PError :=
  { name := "InvalidAPIKeyError",
    message := "The API token provided was rejected by the server" }

/-- Filtering parameters as dispatched on the query string: optional
pagination fields `count` and `offset` plus endpoint-specific fields,
kept abstractly as a key/value list (spec section 3). -/
structure Filter where
  count : Option Int
  offset : Option Int
  extra : List (String × String)
deriving DecidableEq, Repr

/-- The defaults object built inline by every paginated endpoint method:
`{ count: 100, offset: 0 }`. -/
def defaultPagination : Filter :=
  { count := some 100, offset := some 0, extra := [] }

/-- A callback value is opaque to the dispatch path; only its identity
matters for tracking where it is passed and whether it is invoked. -/
abbrev Callback := Nat

/-- A JavaScript value occupying the `queryParameters` argument slot of the
base client: either a genuine filter object or, at the buggy call sites, a
callback function passed in the wrong position. -/
inductive QueryVal where
  | filt (f : Filter)
  | cbVal (c : Callback)
deriving DecidableEq, Repr

/-- Modelled from the spec: `coalesce` from `src/utils.ts` (not in the
sample).  Its call sites pass a variadic argument list and the design notes
describe the behavior as selecting a whole object ("replace entirely if any
field given"): it returns the first argument that is neither null nor
undefined, as SQL COALESCE does, and null when all are absent. -/
def coalesce {α : Type} : List (Option α) → Option α
  | [] => none
  | some a :: _ => some a
  | none :: rest => coalesce rest

/-- The request descriptor an endpoint method hands to the base client:
path, HTTP method, whatever value landed in the `queryParameters` slot,
an optional body marker, and whatever value landed in the `callback` slot. -/
structure DispatchCall where
  path : String
  method : HttpMethod
  query : Option QueryVal
  callback : Option Callback
deriving DecidableEq, Repr

/-- Modelled from the spec: `BaseClient.processRequestWithoutBody` (the
`BaseClient.ts` source is not in the sample).  Per its call sites its
signature is (path, httpMethod, queryParameters?, callback?); it records
the arguments into the request descriptor that the dispatch path executes. -/
def processRequestWithoutBody (path : String) (method : HttpMethod)
    (query : Option QueryVal) (callback : Option Callback) : DispatchCall :=
  { path := path, method := method, query := query, callback := callback }

/-- Modelled from the spec: `BaseClient.processRequestWithBody`; the body
itself is irrelevant to the claims and is not recorded. -/
def processRequestWithBody (path : String) (method : HttpMethod)
    (callback : Option Callback) : DispatchCall :=
  { path := path, method := method, query := none, callback := callback }

/-- The filter value an endpoint method dispatched, when the query slot
holds a genuine filter. -/
def dispatchedFilter (c : DispatchCall) : Option Filter :=
  match c.query with
  | some (QueryVal.filt f) => some f
  | _ => none

/-! ### Endpoint methods of `ServerClient.ts`

Each function mirrors one method body: the `coalesce` call with the same
argument order as the source, and the exact argument positions of the
`processRequest...` call (in particular the call sites that omit the
callback or pass it in the `queryParameters` position). -/

/-- `getBounces(filter?, callback?)`: `filter = coalesce(filter, defaults)`,
then a four-argument dispatch. -/
def getBounces (filter : Option Filter) (callback : Option Callback) : DispatchCall :=
  let filter := coalesce [filter, some defaultPagination]
  processRequestWithoutBody "/bounces" HttpMethod.GET (filter.map QueryVal.filt) callback

/-- `getBounce(id, callback?)`: the source passes `callback` as the third
argument, so it lands in the `queryParameters` slot and the callback slot
stays empty. -/
def getBounce (id : String) (callback : Option Callback) : DispatchCall :=
  processRequestWithoutBody ("/bounces/" ++ id) HttpMethod.GET
    (callback.map QueryVal.cbVal) none

/-- `getServer(callback?)`: the source calls
`processRequestWithoutBody('/server', HttpMethod.GET, null)` and never
forwards the callback at all. -/
def getServer (_callback : Option Callback) : DispatchCall :=
  processRequestWithoutBody "/server" HttpMethod.GET none none

/-- `getDeliveryStatistics(callback?)`: a correct four-argument call site,
for contrast with `getServer`. -/
def getDeliveryStatistics (callback : Option Callback) : DispatchCall :=
  processRequestWithoutBody "/deliverystats" HttpMethod.GET none callback

/-- `getOutboundMessages(filter?, callback?)`:
`filter = coalesce(filter, defaults, filter)` with a redundant third
argument. -/
def getOutboundMessages (filter : Option Filter) (callback : Option Callback) : DispatchCall :=
  let filter := coalesce [filter, some defaultPagination, filter]
  processRequestWithoutBody "/messages/outbound" HttpMethod.GET
    (filter.map QueryVal.filt) callback

/-- `getMessageOpens(filter?, callback?)`: `filter = coalesce(filter, defaults)`. -/
def getMessageOpens (filter : Option Filter) (callback : Option Callback) : DispatchCall :=
  let filter := coalesce [filter, some defaultPagination]
  processRequestWithoutBody "/messages/outbound/opens" HttpMethod.GET
    (filter.map QueryVal.filt) callback

/-- `getMessageClicks(filter?, callback?)`: `filter = coalesce(filter, defaults)`. -/
def getMessageClicks (filter : Option Filter) (callback : Option Callback) : DispatchCall :=
  let filter := coalesce [filter, some defaultPagination]
  processRequestWithoutBody "/messages/outbound/clicks" HttpMethod.GET
    (filter.map QueryVal.filt) callback

/-- `getMessageClicksForSingleMessage(messageId, filter?, callback?)`. -/
def getMessageClicksForSingleMessage (messageId : String)
    (filter : Option Filter) (callback : Option Callback) : DispatchCall :=
  let filter := coalesce [filter, some defaultPagination]
  processRequestWithoutBody ("/messages/outbound/clicks/" ++ messageId) HttpMethod.GET
    (filter.map QueryVal.filt) callback

/-- `getMessageOpensForSingleMessage(messageId, filter?, callback?)`. -/
def getMessageOpensForSingleMessage (messageId : String)
    (filter : Option Filter) (callback : Option Callback) : DispatchCall :=
  let filter := coalesce [filter, some defaultPagination]
  processRequestWithoutBody ("/messages/outbound/opens/" ++ messageId) HttpMethod.GET
    (filter.map QueryVal.filt) callback

/-- `getInboundMessages(filter?, callback?)`. -/
def getInboundMessages (filter : Option Filter) (callback : Option Callback) : DispatchCall :=
  let filter := coalesce [filter, some defaultPagination]
  processRequestWithoutBody "/messages/inbound" HttpMethod.GET
    (filter.map QueryVal.filt) callback

/-- `getTagTriggers(filter?, callback?)`: the source passes the defaults
object FIRST and the caller's filter second: `coalesce(defaults, filter)`. -/
def getTagTriggers (filter : Option Filter) (callback : Option Callback) : DispatchCall :=
  let filter := coalesce [some defaultPagination, filter]
  processRequestWithoutBody "/triggers/tags/" HttpMethod.GET
    (filter.map QueryVal.filt) callback

/-- `getInboundRuleTriggers(filter?, callback?)`: same reversed order,
`coalesce(defaults, filter)`. -/
def getInboundRuleTriggers (filter : Option Filter) (callback : Option Callback) : DispatchCall :=
  let filter := coalesce [some defaultPagination, filter]
  processRequestWithoutBody "/triggers/inboundrules" HttpMethod.GET
    (filter.map QueryVal.filt) callback

/-- `getTemplates(filter, callback?)`: `filter = coalesce(filter, defaults)`. -/
def getTemplates (filter : Option Filter) (callback : Option Callback) : DispatchCall :=
  let filter := coalesce [filter, some defaultPagination]
  processRequestWithoutBody "/templates" HttpMethod.GET
    (filter.map QueryVal.filt) callback

/-! ### Client construction and configuration (`BaseClient`) -/

/-- The base client's state: the auth token, the header name fixed per
client kind, the (fully populated) connection options, and the
client-identifying version string. -/
structure ClientState where
  token : String
  authHeaderName : String
  clientOptions : ClientOptions
  clientVersion : String
deriving DecidableEq, Repr

/-- Modelled from the spec: the version string a freshly constructed client
reports, read from the package manifest; its concrete value is irrelevant
to the claims. -/
def packageVersion : String := "1.0.0"

/-- Modelled from the spec: the `BaseClient` constructor (its source file
is not in the sample).  Construction requires a non-empty token and fails
immediately with a configuration error otherwise, before any network
interaction; unspecified options resolve to the documented defaults. -/
def mkBaseClient (token : String) (authHeaderName : String)
    (options : Option ClientOptions) : Except PError ClientState :=
  if token = "" then
    Except.error tokenRequiredError
  else
    Except.ok
      { token := token
        authHeaderName := authHeaderName
        clientOptions := options.getD defaultClientOptions
        clientVersion := packageVersion }

/-- The `ServerClient` constructor: delegates to the base constructor with
the server token header name (`ServerClient.ts` lines 21-23). -/
def mkServerClient (serverToken : String) (options : Option ClientOptions) :
    Except PError ClientState :=
  mkBaseClient serverToken "X-Postmark-Server-Token" options

/-- The `clientVersion` setter: post-construction overwrite of the
identifying version string. -/
def setClientVersion (c : ClientState) (v : String) : ClientState :=
  { c with clientVersion := v }

/-- A concrete outgoing HTTP request at the transport boundary. -/
structure Request where
  host : String
  path : String
  method : HttpMethod
  headers : List (String × String)
deriving DecidableEq, Repr

/-- Modelled from the spec: how the dispatch path turns a request
descriptor into the outgoing request — every dispatched request attaches
the auth token under the client kind's header name plus the
client-identifying version string. -/
def buildRequest (c : ClientState) (call : DispatchCall) : Request :=
  { host := c.clientOptions.requestHost
    path := call.path
    method := call.method
    headers :=
      [(c.authHeaderName, c.token), ("X-Postmark-Client-Version", c.clientVersion)] }

/-! ### The dispatch path: promise settlement and callback delivery -/

/-- The settled result of the single network attempt: the parsed response
body (kept abstract) or the normalized typed error. -/
inductive Outcome where
  | ok (data : String)
  | err (e : PError)
deriving DecidableEq, Repr

/-- One error-first callback invocation: `(error, data)` with exactly one
of the two non-null. -/
structure CallbackInvocation where
  target : Callback
  error : Option PError
  data : Option String
deriving DecidableEq, Repr

/-- What a completed call delivers: the promise settlement, and the list
of callback invocations performed (in order). -/
structure DispatchResult where
  promise : Outcome
  invocations : List CallbackInvocation
deriving DecidableEq, Repr

/-- Modelled from the spec: the base client's dual delivery (its source
file is not in the sample).  The asynchronous operation is performed once;
its single settled result resolves/rejects the returned promise and, if a
callback value was supplied in the callback slot, that callback is invoked
exactly once with the same result mapped to error-first shape. -/
def dispatch (call : DispatchCall) (transport : Outcome) : DispatchResult :=
  { promise := transport
    invocations :=
      match call.callback with
      | none => []
      | some cb =>
        match transport with
        | Outcome.ok d => [{ target := cb, error := none, data := some d }]
        | Outcome.err e => [{ target := cb, error := some e, data := none }] }

/-! ### `TagTriggerFilteringParameters` -/

/-- The object built by the `TagTriggerFilteringParameters` constructor. -/
structure TagTriggerFilteringParameters where
  count : Int
  offset : Int
  match_name : Option String
deriving DecidableEq, Repr

/-- The `TagTriggerFilteringParameters` constructor:
`constructor(count = 100, offset = 0, match_name?)` forwards count and
offset to the base `FilteringParameters` constructor and stores
`match_name`.  (The base class stores its two arguments; modelled from the
spec's Filtering Parameters shape, its source file not being in the
sample.)  `none` stands for an omitted (or undefined) argument, which in
TypeScript triggers the default parameter value. -/
def mkTagTriggerFilteringParameters (count : Option Int) (offset : Option Int)
    (match_name : Option String) : TagTriggerFilteringParameters :=
  { count := count.getD 100
    offset := offset.getD 0
    match_name := match_name }

/-! ### Claims -/

/-- C1: the claim says every endpoint method with a callback supplied
invokes it exactly once error-first on completion.  The code contradicts
its own documentation: `getServer` (ServerClient.ts line 133) calls
`processRequestWithoutBody('/server', HttpMethod.GET, null)` without
forwarding the callback, so however the call settles, a supplied callback
is invoked zero times, not once. -/
theorem c1_getServer_drops_callback (cb : Callback) (t : Outcome) :
    (dispatch (getServer (some cb)) t).invocations = [] := rfl

/-- C2: constructing a `ServerClient` with the empty token fails
synchronously with the configuration error whose message indicates a valid
API token is required, producing no client state (hence no request can be
built and no network interaction occurs). -/
theorem c2_empty_token_fails (token : String) (options : Option ClientOptions)
    (h : token = "") :
    mkServerClient token options = Except.error tokenRequiredError ∧
      tokenRequiredError.message =
        "A valid API token must be provided when creating a ClientOptions" := by
  subst h
  exact ⟨rfl, rfl⟩

/-- C2 witness: the construction scenario `new ServerClient("")` at the
concrete empty token. -/
theorem c2_empty_token_fails_witness :
    mkServerClient "" none = Except.error tokenRequiredError ∧
      tokenRequiredError.message =
        "A valid API token must be provided when creating a ClientOptions" :=
  c2_empty_token_fails "" none rfl

/-- C3: the claim says every endpoint method given an invalid token
rejects with the stable invalid-credential error AND delivers the same
error to a supplied callback.  `getBounce` (ServerClient.ts line 95)
passes the callback as the third argument, so it lands in the
`queryParameters` slot and the callback slot stays empty: the promise
rejects with `InvalidAPIKeyError` but the callback is never invoked with
`(error, null)`. -/
theorem c3_getBounce_callback_misses_error :
    (getBounce "12345" (some 0)).callback = none ∧
      (getBounce "12345" (some 0)).query = some (QueryVal.cbVal 0) ∧
      (dispatch (getBounce "12345" (some 0)) (Outcome.err invalidApiKeyError)).promise =
        Outcome.err invalidApiKeyError ∧
      (dispatch (getBounce "12345" (some 0)) (Outcome.err invalidApiKeyError)).invocations =
        [] :=
  ⟨rfl, rfl, rfl, rfl⟩

/-- C4: every paginated endpoint method called with the filter argument
omitted dispatches exactly the defaults object, count=100 and offset=0. -/
theorem c4_omitted_filter_defaults (cb : Option Callback) (messageId : String) :
    dispatchedFilter (getBounces none cb) = some defaultPagination ∧
      dispatchedFilter (getOutboundMessages none cb) = some defaultPagination ∧
      dispatchedFilter (getMessageOpens none cb) = some defaultPagination ∧
      dispatchedFilter (getMessageClicks none cb) = some defaultPagination ∧
      dispatchedFilter (getMessageOpensForSingleMessage messageId none cb) =
        some defaultPagination ∧
      dispatchedFilter (getMessageClicksForSingleMessage messageId none cb) =
        some defaultPagination ∧
      dispatchedFilter (getInboundMessages none cb) = some defaultPagination ∧
      dispatchedFilter (getTemplates none cb) = some defaultPagination ∧
      dispatchedFilter (getTagTriggers none cb) = some defaultPagination ∧
      dispatchedFilter (getInboundRuleTriggers none cb) = some defaultPagination :=
  ⟨rfl, rfl, rfl, rfl, rfl, rfl, rfl, rfl, rfl, rfl⟩

/-- A filter with `count` supplied and `offset` omitted, for C5. -/
def sparseFilter : Filter := { count := some 5, offset := none, extra := [] }

/-- C5 counterexample: the claim predicts that `getBounces` called with a
filter specifying count=5 and omitting offset dispatches a filter with the
gap filled, count=5 and offset=0.  In fact `coalesce` returns the caller's
object wholesale: the dispatched filter still has no offset. -/
theorem c5_no_gap_filling :
    dispatchedFilter (getBounces (some sparseFilter) none) = some sparseFilter ∧
      dispatchedFilter (getBounces (some sparseFilter) none) ≠
        some { count := some 5, offset := some 0, extra := [] } := by
  exact ⟨rfl, by decide⟩

/-- C5 amended: for the paginated endpoint methods that pass the caller's
filter first to `coalesce`, a caller-supplied filter is dispatched exactly
as given — every supplied field preserved, missing pagination fields left
unfilled, the caller's object unmodified — and the defaults object is used
only when the filter is omitted entirely. -/
theorem c5_whole_object_defaulting (f : Filter) (cb : Option Callback)
    (messageId : String) :
    dispatchedFilter (getBounces (some f) cb) = some f ∧
      dispatchedFilter (getOutboundMessages (some f) cb) = some f ∧
      dispatchedFilter (getMessageOpens (some f) cb) = some f ∧
      dispatchedFilter (getMessageClicks (some f) cb) = some f ∧
      dispatchedFilter (getMessageOpensForSingleMessage messageId (some f) cb) = some f ∧
      dispatchedFilter (getMessageClicksForSingleMessage messageId (some f) cb) = some f ∧
      dispatchedFilter (getInboundMessages (some f) cb) = some f ∧
      dispatchedFilter (getTemplates (some f) cb) = some f ∧
      dispatchedFilter (getBounces none cb) = some defaultPagination :=
  ⟨rfl, rfl, rfl, rfl, rfl, rfl, rfl, rfl, rfl⟩

/-- C6: `getTagTriggers` and `getInboundRuleTriggers` pass the defaults
object first to `coalesce`, so whatever filter the caller supplies, the
dispatched filter is the defaults object. -/
theorem c6_reversed_coalesce_ignores_filter (f : Option Filter) (cb : Option Callback) :
    dispatchedFilter (getTagTriggers f cb) = some defaultPagination ∧
      dispatchedFilter (getInboundRuleTriggers f cb) = some defaultPagination :=
  ⟨rfl, rfl⟩

/-- C7: a client constructed with the options argument omitted has the
fully populated documented defaults: TLS enabled, the provider API host,
and a 30 second timeout. -/
theorem c7_default_client_options (token : String) (h : token ≠ "") :
    (mkServerClient token none).map ClientState.clientOptions =
        Except.ok defaultClientOptions ∧
      defaultClientOptions.useHttps = true ∧
      defaultClientOptions.requestHost = "api.postmarkapp.com" ∧
      defaultClientOptions.timeout = 30 := by
  refine ⟨?_, rfl, rfl, rfl⟩
  simp [mkServerClient, mkBaseClient, h, Except.map]

/-- C7 witness: construction with a concrete non-empty token and the
options omitted. -/
theorem c7_default_client_options_witness :
    (mkServerClient "unit-token" none).map ClientState.clientOptions =
        Except.ok defaultClientOptions ∧
      defaultClientOptions.useHttps = true ∧
      defaultClientOptions.requestHost = "api.postmarkapp.com" ∧
      defaultClientOptions.timeout = 30 :=
  c7_default_client_options "unit-token" (by decide)

/-- C8: assigning `v` to `clientVersion` after construction makes reads of
`clientVersion` return `v`, and every request built afterwards carries `v`
as the client-identifying string. -/
theorem c8_client_version_overwrite (c : ClientState) (v : String) (call : DispatchCall) :
    (setClientVersion c v).clientVersion = v ∧
      ("X-Postmark-Client-Version", v) ∈
        (buildRequest (setClientVersion c v) call).headers :=
  ⟨rfl, by simp [buildRequest, setClientVersion]⟩

/-- C9: the filter dispatched by `getOutboundMessages`, computed as
`coalesce(filter, defaults, filter)`, equals the filter dispatched by
`getMessageOpens`, computed as `coalesce(filter, defaults)`: the redundant
third argument never affects the resolved filter, because the defaults
object in second position is always non-null. -/
theorem c9_redundant_coalesce_argument (f : Option Filter) (cb : Option Callback) :
    dispatchedFilter (getOutboundMessages f cb) =
        dispatchedFilter (getMessageOpens f cb) ∧
      coalesce [f, some defaultPagination, f] = coalesce [f, some defaultPagination] := by
  cases f <;> exact ⟨rfl, rfl⟩

/-- C10: constructing `TagTriggerFilteringParameters` with all arguments
omitted yields count=100, offset=0, match_name undefined; supplied
arguments are held exactly as given. -/
theorem c10_tag_trigger_filter_ctor :
    mkTagTriggerFilteringParameters none none none =
        { count := 100, offset := 0, match_name := none } ∧
      ∀ (c o : Int) (m : String),
        mkTagTriggerFilteringParameters (some c) (some o) (some m) =
          { count := c, offset := o, match_name := some m } :=
  ⟨rfl, fun _ _ _ => rfl⟩

end Postmark
